import Mathlib

/-!
Shallow embedding of the DELCOM client (src/index.ts): the session state
record, the worker-side socket handlers (job offer, file chunks, run),
the delegator-side routines (createJob, sendFiles, delegateJob), and the
two cleanup coordinators clearJob / clearDelegation, together with a
small event-step relation over quiescent states.
-/

namespace DelcomClient

/-- JavaScript runtime values, as far as the error handling of the client
distinguishes them: Error objects (carrying a message), strings, numbers,
booleans, null, undefined, and other (always truthy) objects. -/
inductive JSVal where
  | jsError : String → JSVal
  | jsStr : String → JSVal
  | jsNum : Int → JSVal
  | jsBool : Bool → JSVal
  | jsNull : JSVal
  | jsUndef : JSVal
  | jsObj : JSVal
deriving DecidableEq

/-- JavaScript truthiness of a value, as tested by the bare
conditionals of the source such as the final branches of clearJob. -/
def JSVal.truthy : JSVal → Bool
  | .jsError _ => true
  | .jsStr s => !(s == "")
  | .jsNum n => !(n == 0)
  | .jsBool b => b
  | .jsNull => false
  | .jsUndef => false
  | .jsObj => true

/-- Whether the value is an Error instance or a string: the two clearJob
branches that pass a specific message through to the callback. -/
def JSVal.isErrOrStr : JSVal → Bool
  | .jsError _ => true
  | .jsStr _ => true
  | _ => false

/-- One acknowledgment-callback invocation: callback() with no argument
is success, callback with an err field is failure with that message. -/
inductive Ack where
  | success : Ack
  | failure : String → Ack
deriving DecidableEq

/-- A write stream: the chunks written so far, whether end() has been
called on it, and whether its finish event has fired. -/
structure WS where
  written : List String := []
  ended : Bool := false
  finished : Bool := false
deriving DecidableEq

/-- Worker-side ActiveJob sub-state (config.job in the source): the
fresh job directory and one write stream per announced file name. -/
structure JobInfo where
  dir : String
  writeStreams : List (String × WS) := []
deriving DecidableEq

/-- Delegator-side ActiveDelegation sub-state (config.res in the
source): the output directory, the four output write streams, and
whether the finishPromise resolver function has been installed
(finishPromise.res in the source; set when createJob runs the promise
executor). -/
structure ResInfo where
  dir : String
  writeStreams : List (String × WS) := []
  hasResolver : Bool := true
deriving DecidableEq

/-- The session state of the client (the config object of the source, plus the
completion-promise cell). The promise field models the value cell of the
finishPromise of the current delegation: none while pending, some v once
resolved with err-field v. Promise resolution in JavaScript is
first-wins, which resolveCell below reproduces. -/
structure ClientState where
  isWorking : Bool := false
  isDelegating : Bool := false
  isWorker : Bool := false
  hasSocket : Bool := true
  delcomTempDir : Option String := none
  job : Option JobInfo := none
  res : Option ResInfo := none
  promise : Option JSVal := none
deriving DecidableEq

/-- The state right after init: temp directory created, socket
connected, both role sub-states absent. -/
def initState (tempDir : String) : ClientState :=
  { delcomTempDir := some tempDir, hasSocket := true }

/-- Result of a clearJob invocation: the new state, the callback
invocation made (none when no callback was pending), and whether a
clearing_job notification was emitted to the server. -/
structure ClearJobOut where
  state : ClientState
  ack : Option Ack
  notified : Bool
deriving DecidableEq

/-- clearJob(err?, callback?): unconditionally sets isWorking false and
discards the job sub-state; if a callback is pending, resolves it with
the normalized error (Error instance: its message; string: itself; any
other truthy value: "Unknown error"; falsy: success); if the error is
truthy and a socket exists, emits clearing_job. -/
def clearJob (s : ClientState) (err : JSVal) (hasCallback : Bool) : ClearJobOut :=
  let s1 := { s with isWorking := false, job := none }
  let ack :=
    if hasCallback then
      some (match err with
        | .jsError m => Ack.failure m
        | .jsStr m => Ack.failure m
        | v => if v.truthy then Ack.failure "Unknown error" else Ack.success)
    else none
  { state := s1, ack := ack, notified := err.truthy && s1.hasSocket }

/-- Observable actions of clearDelegation, in order: calling end() on an
output stream, the finish event of that stream completing, resolving the
completion signal, and discarding the sub-state / clearing the flag. -/
inductive DAct where
  | endStream : String → DAct
  | streamFinished : String → DAct
  | resolveSignal : JSVal → DAct
  | discardDelegation : DAct
deriving DecidableEq

/-- The per-stream portion of the clearDelegation action sequence: each
stream is ended and then awaited until its finish event fires. -/
def streamActsOf : List (String × WS) → List DAct
  | [] => []
  | (n, _) :: rest => DAct.endStream n :: DAct.streamFinished n :: streamActsOf rest

/-- First-wins resolution of a promise cell: resolving an already
resolved promise is a no-op (JavaScript promise semantics). -/
def resolveCell (c : Option JSVal) (v : JSVal) : Option JSVal :=
  match c with
  | some w => some w
  | none => some v

/-- clearDelegation(err?): if a delegation sub-state is present, end
every output write stream and wait for each to finish, then (if the
resolver was installed) resolve the completion signal with the error,
then discard the sub-state and clear isDelegating. With no sub-state
present the stream and resolve steps are skipped and the two clearing
assignments are no-ops. Returns the action trace and the new state. -/
def clearDelegation (s : ClientState) (err : JSVal) : List DAct × ClientState :=
  match s.res with
  | none => ([DAct.discardDelegation], { s with res := none, isDelegating := false })
  | some r =>
    let acts := streamActsOf r.writeStreams
    if r.hasResolver then
      (acts ++ [DAct.resolveSignal err, DAct.discardDelegation],
       { s with res := none, isDelegating := false, promise := resolveCell s.promise err })
    else
      (acts ++ [DAct.discardDelegation], { s with res := none, isDelegating := false })

/-- One fresh write stream per announced file name. -/
def mkJobStreams (fileNames : List String) : List (String × WS) :=
  fileNames.map (fun n => (n, {}))

/-- The new_job_ack handler: reject when already working or a job
sub-state is present (the thrown error is caught and routed through
clearJob together with the pending callback); otherwise set isWorking,
check the temp dir, create the job directory (freshDir stands for the
mkdtemp result) and one write stream per file name, and acknowledge
success. -/
def new_job_ack (s : ClientState) (fileNames : List String) (freshDir : String) :
    ClientState × Ack :=
  if s.isWorking || s.job.isSome then
    let o := clearJob s (.jsError "Already working job!") true
    (o.state, o.ack.getD Ack.success)
  else
    let s1 := { s with isWorking := true }
    match s1.delcomTempDir with
    | none =>
      let o := clearJob s1 (.jsError "No temp dir!") true
      (o.state, o.ack.getD Ack.success)
    | some _ =>
      ({ s1 with job := some { dir := freshDir, writeStreams := mkJobStreams fileNames } },
       Ack.success)

/-- The session state at the asynchronous suspension point inside the
new_job_ack handler: after the preliminary checks pass, isWorking has
already been set to true, but the await of mkdtemp has not yet returned,
so config.job is still absent. none when the handler errors before
reaching the suspension. -/
def new_job_ack_suspended (s : ClientState) : Option ClientState :=
  if s.isWorking || s.job.isSome then none
  else if s.delcomTempDir.isSome then some { s with isWorking := true }
  else none

/-- Append a chunk to the named stream in an association list. -/
def writeChunk (l : List (String × WS)) (name chunk : String) : List (String × WS) :=
  l.map (fun p => if p.1 == name then (p.1, { p.2 with written := p.2.written ++ [chunk] }) else p)

/-- The receive_file_data_ack handler: with no job present, or with a
file name that has no stream (reading .write of undefined throws a
TypeError), or when the stream write reports an error, route the error
through clearJob with the callback; otherwise append the chunk and
acknowledge success. writeErr stands for the error the write callback
may report. -/
def receive_file_data (s : ClientState) (name chunk : String) (writeErr : Option JSVal) :
    ClientState × Ack :=
  match s.job with
  | none =>
    let o := clearJob s (.jsError "No job setup to write to!") true
    (o.state, o.ack.getD Ack.success)
  | some j =>
    if (j.writeStreams.map Prod.fst).contains name then
      match writeErr with
      | some e =>
        let o := clearJob s e true
        (o.state, o.ack.getD Ack.success)
      | none =>
        ({ s with job := some { j with writeStreams := writeChunk j.writeStreams name chunk } },
         Ack.success)
    else
      let o := clearJob s (.jsError "Cannot read properties of undefined (reading write)") true
      (o.state, o.ack.getD Ack.success)

/-- A build/run output event handler on the delegator side
(build_std_out, build_std_err, run_std_out, run_std_err): look up the
named stream in the delegation sub-state; if absent, the thrown error is
routed through clearJob (sic: the worker-side cleanup routine) with the
callback; otherwise write the chunk and acknowledge. -/
def outputEvent (s : ClientState) (outputName chunk : String) : ClientState × Ack :=
  match s.res.bind (fun r => r.writeStreams.find? (fun p => p.1 == outputName)) with
  | none =>
    let o := clearJob s (.jsError "No writeable stream to write to!") true
    (o.state, o.ack.getD Ack.success)
  | some _ =>
    ({ s with
        res := s.res.map (fun r => { r with writeStreams := writeChunk r.writeStreams outputName chunk }) },
     Ack.success)

/-- Observable worker-side milestones of the run_job handler: the build
subprocess being spawned, the run subprocess being spawned, the done
event, and a clearing_job notification carrying an error. -/
inductive WMsg where
  | buildStarted : WMsg
  | runStarted : WMsg
  | done : WMsg
  | clearingJob : JSVal → WMsg
deriving DecidableEq

/-- True when the trace contains no clearing_job notification. -/
def noClearing : List WMsg → Bool
  | [] => true
  | .clearingJob _ :: _ => false
  | _ :: rest => noClearing rest

/-- Mark every stream of a list as ended and finished. -/
def finishAll (l : List (String × WS)) : List (String × WS) :=
  l.map (fun p => (p.1, { p.2 with ended := true, finished := true }))

/-- Finalize all input write streams of the job sub-state, as the
run_job handler does before building. -/
def finishJobStreams (s : ClientState) : ClientState :=
  { s with job := s.job.map (fun j => { j with writeStreams := finishAll j.writeStreams }) }

/-- The run_job handler: finalize all input streams, then build
(buildContainer rejects with a string when the job directory or the
socket is missing, or when the build subprocess exits non-zero), then
run (same for the run subprocess), then emit done and clear the job
without error; any rejection is caught and routed through clearJob with
that error and no callback. buildExit and runExit stand for the two
subprocess exit codes. Returns the new state and the milestone trace. -/
def run_job (s : ClientState) (buildExit runExit : Nat) : ClientState × List WMsg :=
  let s0 := finishJobStreams s
  if s0.job.isNone then
    let e := JSVal.jsStr "No job dir to build from!"
    let o := clearJob s0 e false
    (o.state, if o.notified then [WMsg.clearingJob e] else [])
  else if !s0.hasSocket then
    let e := JSVal.jsStr "No socket to build with!"
    let o := clearJob s0 e false
    (o.state, if o.notified then [WMsg.clearingJob e] else [])
  else if buildExit != 0 then
    let e := JSVal.jsStr ("Build failed with code " ++ toString buildExit)
    let o := clearJob s0 e false
    (o.state, WMsg.buildStarted :: (if o.notified then [WMsg.clearingJob e] else []))
  else if runExit != 0 then
    let e := JSVal.jsStr ("Runtime failed with code " ++ toString runExit)
    let o := clearJob s0 e false
    (o.state, WMsg.buildStarted :: WMsg.runStarted :: (if o.notified then [WMsg.clearingJob e] else []))
  else
    let o := clearJob s0 JSVal.jsUndef false
    (o.state, [WMsg.buildStarted, WMsg.runStarted, WMsg.done])

/-- The characters of the last path component (path.basename):
everything after the final separator. -/
def lastComponent : List Char → List Char → List Char
  | [], acc => acc
  | c :: rest, acc => if c == '/' then lastComponent rest [] else lastComponent rest (acc ++ [c])

/-- path.basename: strip the directory part of a path. -/
def basename (p : String) : String :=
  String.mk (lastComponent p.data [])

/-- Network messages the delegator sends to the server: the job-creation
request carrying the file-name manifest, one chunk-transfer request per
file chunk, and the files_done_sending notification. -/
inductive NetMsg where
  | newJobReq : List String → NetMsg
  | fileChunk : String → NetMsg
  | filesDoneSending : NetMsg
deriving DecidableEq

/-- The fixed output channel names. -/
def outputNames : List String :=
  ["build_std_out", "build_std_err", "run_std_out", "run_std_err"]

/-- The four fresh output write streams createJob opens. -/
def mkResStreams : List (String × WS) :=
  outputNames.map (fun n => (n, {}))

/-- The portion of createJob from the delegation sub-state assignment
onward: s1 already holds the installed sub-state (with the four output
write streams and the fresh pending promise); check the output
directory, the file paths and the Dockerfile manifest, then emit the
job-creation request and inspect the acknowledgment of the worker;
every thrown error goes through clearDelegation. When the socket is
absent, emitWithAck through the optional chain yields undefined, which
the truthiness test treats as success. -/
def createJobWithRes (s1 : ClientState) (filePaths : List String) (dir : String)
    (dirOk : Bool) (isFile : String → Bool) (ackErr : JSVal) :
    ClientState × List NetMsg :=
  if !dirOk then
    ((clearDelegation s1 (.jsError ("outDir is not a valid directory! Was given " ++ dir))).2, [])
  else
    match filePaths.find? (fun p => !isFile p) with
    | some p =>
      ((clearDelegation s1 (.jsError ("Invalid file path! " ++ p ++ " is not a file!"))).2, [])
    | none =>
      if !((filePaths.map basename).contains "Dockerfile") then
        ((clearDelegation s1 (.jsError "No Dockerfile found in filePaths!")).2, [])
      else if s1.hasSocket then
        if ackErr.truthy then
          ((clearDelegation s1 ackErr).2, [NetMsg.newJobReq (filePaths.map basename)])
        else
          (s1, [NetMsg.newJobReq (filePaths.map basename)])
      else
        (s1, [])

/-- createJob: set isDelegating, install the delegation sub-state with a
fresh pending completion promise and the four output write streams, then
run the checks and the job-creation request of createJobWithRes; every
thrown error is caught and awaited through clearDelegation. freshDir
stands for the mkdtemp result used when no output directory is supplied
(mkdtemp always yields a directory); isFile and isDir are the
filesystem oracles; ackErr is the value of the acknowledgment from the
worker (truthy means rejection). Returns the new state and the network
messages emitted. -/
def createJob (s : ClientState) (filePaths : List String) (outDirOpt : Option String)
    (freshDir : String) (isFile : String → Bool) (isDir : String → Bool)
    (ackErr : JSVal) : ClientState × List NetMsg :=
  let dir := outDirOpt.getD freshDir
  let s1 := { s with isDelegating := true,
                     res := some { dir := dir, writeStreams := mkResStreams, hasResolver := true },
                     promise := none }
  let dirOk := match outDirOpt with
    | some d => isDir d
    | none => true
  createJobWithRes s1 filePaths dir dirOk isFile ackErr

/-- sendFiles: with no socket the thrown error goes through
clearDelegation; otherwise open one read stream per file path, emit one
chunk-transfer request per chunk, and, if any read stream errored,
route the rejection through clearDelegation, else emit
files_done_sending. readChunks gives the chunk contents of each file and
readFails whether its read stream errors. Returns the new state, the
network messages emitted, and the file paths whose read streams were
opened. -/
def sendFiles (s : ClientState) (filePaths : List String)
    (readChunks : String → List String) (readFails : String → Bool) :
    ClientState × List NetMsg × List String :=
  if !s.hasSocket then
    ((clearDelegation s (.jsError "No socket to send through!")).2, [], [])
  else
    let emits := filePaths.flatMap (fun p => (readChunks p).map (fun _ => NetMsg.fileChunk (basename p)))
    match filePaths.find? (fun p => readFails p) with
    | some p =>
      ((clearDelegation s (.jsStr ("readStream for " ++ basename p ++ " errored"))).2, emits, filePaths)
    | none =>
      (s, emits ++ [NetMsg.filesDoneSending], filePaths)

/-- The value delegateJob returns: the res branch carrying the output
directory, or the err branch carrying the error value. -/
inductive DResult where
  | okDir : String → DResult
  | errVal : JSVal → DResult
deriving DecidableEq

/-- Outcome of one delegateJob call: final state, network messages
emitted, read streams opened, and the returned result. -/
structure DelegateOut where
  state : ClientState
  emits : List NetMsg
  readsOpened : List String
  result : DResult
deriving DecidableEq

/-- True when the call returned its error branch. -/
def DelegateOut.failed (o : DelegateOut) : Bool :=
  match o.result with
  | .errVal _ => true
  | .okDir _ => false

/-- delegateJob: run createJob; if no delegation sub-state survived it
(createJob failed and cleared it), throw and return the error branch
without opening any read stream; otherwise run sendFiles and await the
completion promise. If sendFiles failed and cleared the sub-state, the
optional chain on the cleared sub-state makes the await yield undefined
and the call returns its success branch (a faithful rendering of the
source). Otherwise the await blocks until a remote completion event
fires clearDelegation with finishErr; a truthy resolved err field is
returned as the error branch, else the output directory. -/
def delegateJob (s : ClientState) (filePaths : List String) (outDirOpt : Option String)
    (freshDir : String) (isFile : String → Bool) (isDir : String → Bool) (ackErr : JSVal)
    (readChunks : String → List String) (readFails : String → Bool)
    (finishErr : JSVal) : DelegateOut :=
  let c := createJob s filePaths outDirOpt freshDir isFile isDir ackErr
  match c.1.res with
  | none =>
    { state := c.1, emits := c.2, readsOpened := [],
      result := DResult.errVal (.jsError "No outDir after creating job?") }
  | some r =>
    let f := sendFiles c.1 filePaths readChunks readFails
    match f.1.res with
    | none =>
      { state := f.1, emits := c.2 ++ f.2.1, readsOpened := f.2.2,
        result := DResult.okDir r.dir }
    | some _ =>
      let d := (clearDelegation f.1 finishErr).2
      match d.promise with
      | some e =>
        if e.truthy then
          { state := d, emits := c.2 ++ f.2.1, readsOpened := f.2.2,
            result := DResult.errVal e }
        else
          { state := d, emits := c.2 ++ f.2.1, readsOpened := f.2.2,
            result := DResult.okDir r.dir }
      | none =>
        { state := d, emits := c.2 ++ f.2.1, readsOpened := f.2.2,
          result := DResult.okDir r.dir }

/-- Result record of joinWorkforce / leaveWorkforce. -/
structure OpResult where
  err : Option JSVal := none
deriving DecidableEq

/-- joinWorkforce: set isWorker true first, then throw when no socket
exists, then await the join acknowledgment (ackOk false stands for a
timeout, modelled as a thrown object); every throw is caught and
returned as the error field, with no rollback of the flag. -/
def joinWorkforce (s : ClientState) (ackOk : Bool) : ClientState × OpResult :=
  let s1 := { s with isWorker := true }
  if !s1.hasSocket then
    (s1, { err := some (.jsError "Not connected, cannot become worker!") })
  else if !ackOk then
    (s1, { err := some JSVal.jsObj })
  else
    (s1, {})

/-- leaveWorkforce: set isWorker false first, then throw when no socket
exists, then await the leave acknowledgment; errors are returned, the
flag is not rolled back. -/
def leaveWorkforce (s : ClientState) (ackOk : Bool) : ClientState × OpResult :=
  let s1 := { s with isWorker := false }
  if !s1.hasSocket then
    (s1, { err := some (.jsError "Not connected, cannot stop working!") })
  else if !ackOk then
    (s1, { err := some JSVal.jsObj })
  else
    (s1, {})

/-- One inbound event or locally initiated operation, carrying the
environment data (fresh directory names, subprocess exit codes,
filesystem and read oracles, remote acknowledgment values) its handler
consumes. -/
inductive Event where
  | newJobAck : List String → String → Event
  | receiveFileData : String → String → Option JSVal → Event
  | outputData : String → String → Event
  | runJob : Nat → Nat → Event
  | finishedEvt : Event
  | delegatorDisconnect : Event
  | workerDisconnect : Event
  | delegationFailed : JSVal → Event
  | createJobOp : List String → Option String → String → (String → Bool) → (String → Bool) → JSVal → Event
  | sendFilesOp : List String → (String → List String) → (String → Bool) → Event
  | joinOp : Bool → Event
  | leaveOp : Bool → Event

/-- The handler each event dispatches to, run to completion (state at
the next quiescent point). -/
def step (s : ClientState) : Event → ClientState
  | .newJobAck fns d => (new_job_ack s fns d).1
  | .receiveFileData n c we => (receive_file_data s n c we).1
  | .outputData n c => (outputEvent s n c).1
  | .runJob b r => (run_job s b r).1
  | .finishedEvt => (clearDelegation s JSVal.jsUndef).2
  | .delegatorDisconnect => (clearJob s (.jsStr "Delegator has disconnected") false).state
  | .workerDisconnect => (clearDelegation s (.jsStr "Worker has disconnected")).2
  | .delegationFailed reason => (clearDelegation s reason).2
  | .createJobOp fp od fd isFile isDir ae => (createJob s fp od fd isFile isDir ae).1
  | .sendFilesOp fp rc rf => (sendFiles s fp rc rf).1
  | .joinOp ok => (joinWorkforce s ok).1
  | .leaveOp ok => (leaveWorkforce s ok).1

/-- Worker-half pairing: the isWorking flag implies the job sub-state
is present. -/
def Wker (cs : ClientState) : Prop :=
  cs.isWorking = true → cs.job.isSome = true

/-- Delegator-half pairing: the isDelegating flag implies the
delegation sub-state is present. -/
def Dleg (cs : ClientState) : Prop :=
  cs.isDelegating = true → cs.res.isSome = true

/-- A new_job_ack handler instance suspended at its mkdtemp await: the
checks passed and isWorking is already set; on resumption the handler
installs the job sub-state built from these parameters. -/
structure JobPending where
  fileNames : List String
  freshDir : String
deriving DecidableEq

/-- A createJob invocation (no output directory supplied) suspended at
its mkdtemp await: isDelegating is already set; on resumption the
handler installs the delegation sub-state and runs the rest of
createJob with these parameters. -/
structure ResPending where
  filePaths : List String
  freshDir : String
  isFile : String → Bool
  ackErr : JSVal

/-- The portion of the new_job_ack handler after its mkdtemp await
completes: install the job sub-state and acknowledge success (the
success suffix of new_job_ack). -/
def newJobAckResume (cs : ClientState) (p : JobPending) : ClientState × Ack :=
  ({ cs with job := some { dir := p.freshDir, writeStreams := mkJobStreams p.fileNames } },
   Ack.success)

/-- The portion of createJob after its mkdtemp await completes: install
the delegation sub-state and the fresh pending promise, then run the
remaining checks and the job-creation request (the fresh temp directory
always passes the directory check). isDelegating is not re-assigned
here: the handler set it before suspending, and an event processed
during the await may have cleared it meanwhile. -/
def createJobResume (cs : ClientState) (p : ResPending) : ClientState × List NetMsg :=
  let s1 := { cs with
                res := some { dir := p.freshDir, writeStreams := mkResStreams,
                              hasResolver := true },
                promise := none }
  createJobWithRes s1 p.filePaths p.freshDir true p.isFile p.ackErr

/-- The whole client between events: the session state plus the handler
instances currently suspended at a mkdtemp await. Those two awaits are
the only suspension points at which a role flag is set while its
sub-state is not yet installed, and the only handler suffixes that
install a sub-state; every other handler suffix only clears the paired
fields (through clearJob / clearDelegation) or leaves them alone. -/
structure SysState where
  cs : ClientState
  pendingJobs : List JobPending
  pendingRess : List ResPending

/-- One scheduling step of the event loop: either some event handler
runs (its suspended portions, if any, are the suspend/resume steps
below; the atomic event step also covers a handler that runs with no
interleaving, and the handler variants that error before suspending),
or a handler suspends at its mkdtemp await, or a completed mkdtemp
resumes one suspended handler (in any order). Events may fire freely
between a suspension and its resumption, which is how a clear processed
during the await interleaves with the handler. -/
inductive MicroStep : SysState → SysState → Prop where
  | event : ∀ (s : SysState) (e : Event),
      MicroStep s ⟨step s.cs e, s.pendingJobs, s.pendingRess⟩
  | offerSuspend : ∀ (s : SysState) (fns : List String) (d : String),
      (s.cs.isWorking || s.cs.job.isSome) = false →
      s.cs.delcomTempDir.isSome = true →
      MicroStep s ⟨{ s.cs with isWorking := true }, ⟨fns, d⟩ :: s.pendingJobs, s.pendingRess⟩
  | offerResume : ∀ (cs : ClientState) (l1 l2 : List JobPending) (p : JobPending)
      (pr : List ResPending),
      MicroStep ⟨cs, l1 ++ p :: l2, pr⟩ ⟨(newJobAckResume cs p).1, l1 ++ l2, pr⟩
  | delegSuspend : ∀ (s : SysState) (fp : List String) (d : String)
      (isFile : String → Bool) (ae : JSVal),
      MicroStep s ⟨{ s.cs with isDelegating := true }, s.pendingJobs,
        ⟨fp, d, isFile, ae⟩ :: s.pendingRess⟩
  | delegResume : ∀ (cs : ClientState) (pj : List JobPending)
      (l1 l2 : List ResPending) (p : ResPending),
      MicroStep ⟨cs, pj, l1 ++ p :: l2⟩ ⟨(createJobResume cs p).1, pj, l1 ++ l2⟩

/-- System states reachable from the initialized client by any
interleaving of handler executions, suspensions and resumptions. -/
inductive ReachableI (tempDir : String) : SysState → Prop where
  | init : ReachableI tempDir ⟨initState tempDir, [], []⟩
  | next : ∀ {s t : SysState}, ReachableI tempDir s → MicroStep s t → ReachableI tempDir t

/-- The inductive system invariant: a set role flag is backed either by
its installed sub-state or by a handler suspended before installing
it. At quiescent states (no suspended handler) it reduces to the flag
implying the sub-state. -/
def SysInv (s : SysState) : Prop :=
  (s.cs.isWorking = true → s.cs.job.isSome = true ∨ s.pendingJobs ≠ []) ∧
  (s.cs.isDelegating = true → s.cs.res.isSome = true ∨ s.pendingRess ≠ [])

/-- Action a occurs strictly before action b in the trace. -/
def ActBefore (tr : List DAct) (a b : DAct) : Prop :=
  ∃ t1 t2 t3, tr = t1 ++ a :: (t2 ++ b :: t3)

/-- A worker session in the middle of a job: isWorking set and the job
sub-state present (the state new_job_ack produces on acceptance). -/
def busyState : ClientState :=
  { initState "tmp" with
      isWorking := true,
      job := some { dir := "tmp/job1", writeStreams := mkJobStreams ["Dockerfile"] } }

/-- A delegator session whose delegation sub-state and pending
completion promise are installed (the state createJob produces on its
success path). -/
def resInfo1 : ResInfo :=
  { dir := "tmp/res1", writeStreams := mkResStreams, hasResolver := true }

/-- The delegating session built around resInfo1. -/
def pendingDelegation : ClientState :=
  { initState "tmp" with isDelegating := true, res := some resInfo1, promise := none }

/-- clearDelegation always leaves the sub-state absent and the flag
cleared, whatever branch it takes. -/
theorem clearDelegation_clears (s : ClientState) (err : JSVal) :
    (clearDelegation s err).2.res = none ∧ (clearDelegation s err).2.isDelegating = false := by
  cases hs : s.res with
  | none => simp [clearDelegation, hs]
  | some r => cases hr : r.hasResolver <;> simp [clearDelegation, hs, hr]

/-- clearDelegation never touches the worker-side fields. -/
theorem clearDelegation_worker_fields (s : ClientState) (err : JSVal) :
    (clearDelegation s err).2.isWorking = s.isWorking ∧
    (clearDelegation s err).2.job = s.job := by
  cases hs : s.res with
  | none => simp [clearDelegation, hs]
  | some r => cases hr : r.hasResolver <;> simp [clearDelegation, hs, hr]

/-- clearJob establishes the worker-half pairing outright. -/
theorem wker_clearJob (s : ClientState) (err : JSVal) (cb : Bool) :
    Wker (clearJob s err cb).state := by
  intro h
  exact Bool.noConfusion h

/-- clearJob preserves the delegator-half pairing (it never touches the
delegator-side fields). -/
theorem dleg_clearJob (s : ClientState) (err : JSVal) (cb : Bool) (h : Dleg s) :
    Dleg (clearJob s err cb).state := h

/-- clearDelegation establishes the delegator-half pairing outright. -/
theorem dleg_clearDelegation (s : ClientState) (err : JSVal) :
    Dleg (clearDelegation s err).2 := by
  intro h
  rw [(clearDelegation_clears s err).2] at h
  exact Bool.noConfusion h

/-- clearDelegation preserves the worker-half pairing. -/
theorem wker_clearDelegation (s : ClientState) (err : JSVal) (h : Wker s) :
    Wker (clearDelegation s err).2 := by
  intro hw
  rw [(clearDelegation_worker_fields s err).1] at hw
  rw [(clearDelegation_worker_fields s err).2]
  exact h hw

/-- Claim C1 (code-bug demonstration): a job offer arriving while the
client is already working acknowledges the offer with the
already-working error, but the rejection runs through clearJob and
therefore sets isWorking to false and discards the existing ActiveJob,
rather than leaving both unchanged. -/
theorem new_job_ack_while_busy_clears_state :
    (new_job_ack busyState ["main.go"] "tmp/job2").2 = Ack.failure "Already working job!" ∧
    (new_job_ack busyState ["main.go"] "tmp/job2").1.isWorking = false ∧
    (new_job_ack busyState ["main.go"] "tmp/job2").1.job = none := by
  decide

/-- Claim C4 (code-bug demonstration): an error inside a build/run
output event handler — here a build_std_out chunk arriving with no
delegation sub-state to write into — is routed through the worker-side
clearJob: the callback receives the error, the worker-side job state is
destroyed, and the delegation flag and the completion promise are left
untouched, instead of the error going through clearDelegation and
resolving the completion signal. -/
theorem output_error_routes_to_clearJob :
    (outputEvent busyState "build_std_out" "chunk").2 =
      Ack.failure "No writeable stream to write to!" ∧
    (outputEvent busyState "build_std_out" "chunk").1.isWorking = false ∧
    (outputEvent busyState "build_std_out" "chunk").1.job = none ∧
    (outputEvent busyState "build_std_out" "chunk").1.promise = busyState.promise ∧
    (outputEvent busyState "build_std_out" "chunk").1.isDelegating = busyState.isDelegating := by
  decide

/-- Claim C9 (counterexample): passing the falsy error value 0 to
clearJob together with a pending callback invokes the callback with
success and emits no notification, although an error value other than
an Error instance or a string was present — the claimed generic
unknown-error message is not produced. -/
theorem clearJob_falsy_error_acks_success :
    (clearJob busyState (.jsNum 0) true).ack = some Ack.success ∧
    (clearJob busyState (.jsNum 0) true).notified = false := by
  decide

/-- Claim C9 (amended): the callback normalization of clearJob maps an Error
value to its message, passes a string through unchanged, maps every
other truthy value to the "Unknown error" message, and treats every
other falsy value (0, false, null, undefined) as no error, invoking the
callback with success; an absent error likewise yields success. -/
theorem clearJob_normalizes_error (s : ClientState) (m : String) (v : JSVal)
    (hv : v.isErrOrStr = false) :
    (clearJob s (.jsError m) true).ack = some (Ack.failure m) ∧
    (clearJob s (.jsStr m) true).ack = some (Ack.failure m) ∧
    (clearJob s v true).ack =
      some (if v.truthy then Ack.failure "Unknown error" else Ack.success) ∧
    (clearJob s JSVal.jsUndef true).ack = some Ack.success := by
  refine ⟨rfl, rfl, ?_, rfl⟩
  cases v <;> simp_all [clearJob, JSVal.truthy, JSVal.isErrOrStr]

/-- Witness for clearJob_normalizes_error at a concrete state and the
concrete non-Error non-string value 5. -/
theorem clearJob_normalizes_error_witness :
    JSVal.isErrOrStr (.jsNum 5) = false ∧
    ((clearJob busyState (.jsError "boom") true).ack = some (Ack.failure "boom") ∧
     (clearJob busyState (.jsStr "boom") true).ack = some (Ack.failure "boom") ∧
     (clearJob busyState (.jsNum 5) true).ack =
       some (if (JSVal.jsNum 5).truthy then Ack.failure "Unknown error" else Ack.success) ∧
     (clearJob busyState JSVal.jsUndef true).ack = some Ack.success) :=
  ⟨by decide, clearJob_normalizes_error busyState "boom" (.jsNum 5) (by decide)⟩

/-- Claim C10: joinWorkforce sets isWorker true and leaveWorkforce sets
it false before the socket check and the acknowledgment await, so the
flag keeps its new value even when the call returns an error, and an
error is returned exactly when the socket is missing or the
acknowledgment fails. -/
theorem workforce_flag_not_rolled_back (s : ClientState) (ackOk : Bool) :
    (joinWorkforce s ackOk).1.isWorker = true ∧
    (leaveWorkforce s ackOk).1.isWorker = false ∧
    (joinWorkforce s ackOk).2.err.isSome = (!s.hasSocket || !ackOk) ∧
    (leaveWorkforce s ackOk).2.err.isSome = (!s.hasSocket || !ackOk) := by
  cases hs : s.hasSocket <;> cases ackOk <;>
    simp [joinWorkforce, leaveWorkforce, hs]

/-- Claim C7: the two cleanup routines are idempotent: a second
invocation on the already-cleared sub-state returns the same state,
emits no notification, performs no stream end or finish wait (its whole
trace is the vacuous clearing step), and leaves the completion promise
cell untouched; both routines are total functions, so no error can be
produced. -/
theorem cleanup_idempotent (s : ClientState) (err : JSVal) (hasCb : Bool) :
    (clearJob (clearJob s err hasCb).state JSVal.jsUndef false).state =
      (clearJob s err hasCb).state ∧
    (clearJob (clearJob s err hasCb).state JSVal.jsUndef false).notified = false ∧
    (clearDelegation (clearDelegation s err).2 JSVal.jsUndef).2 =
      (clearDelegation s err).2 ∧
    (clearDelegation (clearDelegation s err).2 JSVal.jsUndef).1 =
      [DAct.discardDelegation] := by
  refine ⟨rfl, rfl, ?_, ?_⟩ <;>
    cases hs : s.res with
    | none => simp [clearDelegation, hs]
    | some r => cases hr : r.hasResolver <;> simp [clearDelegation, hs, hr]

/-- Claim C2: the completion signal is resolved at most once: the first
clearDelegation on a pending delegation resolves the promise cell with
its error value, and any later clearDelegation, whatever error it
carries, leaves that resolution unchanged (a later attempt is a no-op
on a total function, not an error). -/
theorem completion_signal_single_fire (s : ClientState) (err errLater : JSVal)
    (r : ResInfo) (hres : s.res = some r) (hr : r.hasResolver = true)
    (hp : s.promise = none) :
    (clearDelegation s err).2.promise = some err ∧
    (clearDelegation (clearDelegation s err).2 errLater).2.promise = some err := by
  simp [clearDelegation, hres, hr, hp, resolveCell]

/-- Witness for completion_signal_single_fire: a worker-disconnect error
resolves the signal of a concrete pending delegation, and a later
success-clear does not overwrite it. -/
theorem completion_signal_single_fire_witness :
    pendingDelegation.res = some resInfo1 ∧
    resInfo1.hasResolver = true ∧
    pendingDelegation.promise = none ∧
    ((clearDelegation pendingDelegation (.jsStr "Worker has disconnected")).2.promise =
       some (.jsStr "Worker has disconnected") ∧
     (clearDelegation (clearDelegation pendingDelegation (.jsStr "Worker has disconnected")).2
        JSVal.jsUndef).2.promise = some (.jsStr "Worker has disconnected")) :=
  ⟨by decide, by decide, by decide,
   completion_signal_single_fire pendingDelegation (.jsStr "Worker has disconnected")
     JSVal.jsUndef resInfo1 (by decide) (by decide) (by decide)⟩

/-- A nonempty-headed string stays distinct from the empty string under
append (stated through the boolean equality the truthiness test uses). -/
theorem append_ne_empty_beq (p t : String) (hp : p.data ≠ []) :
    ((p ++ t) == "") = false := by
  rw [beq_eq_false_iff_ne]
  intro h
  apply hp
  have hd := congrArg String.data h
  rw [String.data_append] at hd
  exact (List.append_eq_nil.mp hd).1

/-- Claim C8: with a job sub-state present and a socket connected, a
non-zero build exit aborts before the run step starts and unwinds
through a clear carrying the build error; a non-zero run exit never
emits done and unwinds through a clear carrying the runtime error; only
a zero run exit emits done after build and run, followed by a clear of
the job with no error notification. -/
theorem run_job_exit_status (s : ClientState) (b r : Nat)
    (hjob : s.job.isSome = true) (hsock : s.hasSocket = true) :
    (b ≠ 0 →
      WMsg.runStarted ∉ (run_job s b r).2 ∧
      WMsg.done ∉ (run_job s b r).2 ∧
      WMsg.clearingJob (.jsStr ("Build failed with code " ++ toString b)) ∈ (run_job s b r).2 ∧
      (run_job s b r).1.isWorking = false ∧ (run_job s b r).1.job = none) ∧
    (b = 0 → r ≠ 0 →
      WMsg.done ∉ (run_job s b r).2 ∧
      WMsg.runStarted ∈ (run_job s b r).2 ∧
      WMsg.clearingJob (.jsStr ("Runtime failed with code " ++ toString r)) ∈ (run_job s b r).2 ∧
      (run_job s b r).1.isWorking = false ∧ (run_job s b r).1.job = none) ∧
    (b = 0 → r = 0 →
      (run_job s b r).2 = [WMsg.buildStarted, WMsg.runStarted, WMsg.done] ∧
      noClearing (run_job s b r).2 = true ∧
      (run_job s b r).1.isWorking = false ∧ (run_job s b r).1.job = none) := by
  obtain ⟨j, hj⟩ : ∃ j, s.job = some j := by
    cases hsj : s.job
    · rw [hsj] at hjob
      simp at hjob
    · exact ⟨_, rfl⟩
  have hb1 : (("Build failed with code " ++ toString b) == "") = false :=
    append_ne_empty_beq _ _ (by decide)
  have hr1 : (("Runtime failed with code " ++ toString r) == "") = false :=
    append_ne_empty_beq _ _ (by decide)
  refine ⟨?_, ?_, ?_⟩
  · intro hb
    have hb2 : (b != 0) = true := by simpa using hb
    simp [run_job, finishJobStreams, hj, hsock, hb2, clearJob, JSVal.truthy, hb1]
  · intro hb hr2
    have hr3 : (r != 0) = true := by simpa using hr2
    subst hb
    simp [run_job, finishJobStreams, hj, hsock, hr3, clearJob, JSVal.truthy, hr1]
  · intro hb hr2
    subst hb
    subst hr2
    simp [run_job, finishJobStreams, hj, hsock, clearJob, noClearing]

/-- Witness for run_job_exit_status: build exit 1 on the concrete busy
worker never starts the run step, never emits done, notifies the build
error, and clears the job. -/
theorem run_job_exit_status_witness :
    busyState.job.isSome = true ∧ busyState.hasSocket = true ∧
    (WMsg.runStarted ∉ (run_job busyState 1 2).2 ∧
     WMsg.done ∉ (run_job busyState 1 2).2 ∧
     WMsg.clearingJob (.jsStr ("Build failed with code " ++ toString 1)) ∈
       (run_job busyState 1 2).2 ∧
     (run_job busyState 1 2).1.isWorking = false ∧
     (run_job busyState 1 2).1.job = none) :=
  ⟨by decide, by decide,
   (run_job_exit_status busyState 1 2 (by decide) (by decide)).1 (by decide)⟩

/-- Every stream name in the list contributes an end action immediately
followed by its finish action to the per-stream action sequence. -/
theorem streamActsOf_split (l : List (String × WS)) (n : String)
    (hn : n ∈ l.map Prod.fst) :
    ∃ u v, streamActsOf l = u ++ DAct.endStream n :: DAct.streamFinished n :: v := by
  induction l with
  | nil => simp at hn
  | cons hd tl ih =>
    obtain ⟨m, w⟩ := hd
    rcases (by simpa using hn : n = m ∨ n ∈ tl.map Prod.fst) with h | h
    · subst h
      exact ⟨[], streamActsOf tl, rfl⟩
    · obtain ⟨u, v, huv⟩ := ih h
      exact ⟨DAct.endStream m :: DAct.streamFinished m :: u, v, by simp [streamActsOf, huv]⟩

/-- Claim C6: when clearDelegation runs with a delegation sub-state
present (and its resolver installed), every output stream is ended and
then finishes before the completion signal is resolved, the resolution
precedes discarding the sub-state, and afterwards the sub-state is gone
and isDelegating is false. -/
theorem clearDelegation_flush_before_resolve (s : ClientState) (err : JSVal)
    (r : ResInfo) (n : String) (hres : s.res = some r) (hr : r.hasResolver = true)
    (hn : n ∈ r.writeStreams.map Prod.fst) :
    ActBefore (clearDelegation s err).1 (DAct.endStream n) (DAct.streamFinished n) ∧
    ActBefore (clearDelegation s err).1 (DAct.streamFinished n) (DAct.resolveSignal err) ∧
    ActBefore (clearDelegation s err).1 (DAct.resolveSignal err) DAct.discardDelegation ∧
    (clearDelegation s err).2.res = none ∧
    (clearDelegation s err).2.isDelegating = false := by
  obtain ⟨u, v, huv⟩ := streamActsOf_split r.writeStreams n hn
  have htr : (clearDelegation s err).1 =
      u ++ DAct.endStream n :: DAct.streamFinished n :: v ++
        [DAct.resolveSignal err, DAct.discardDelegation] := by
    simp [clearDelegation, hres, hr, huv]
  refine ⟨⟨u, [], v ++ [DAct.resolveSignal err, DAct.discardDelegation], ?_⟩,
          ⟨u ++ [DAct.endStream n], v, [DAct.discardDelegation], ?_⟩,
          ⟨u ++ DAct.endStream n :: DAct.streamFinished n :: v, [], [], ?_⟩,
          (clearDelegation_clears s err).1, (clearDelegation_clears s err).2⟩ <;>
    simp [htr]

/-- Witness for clearDelegation_flush_before_resolve on the concrete
pending delegation and its build_std_out stream. -/
theorem clearDelegation_flush_before_resolve_witness :
    pendingDelegation.res = some resInfo1 ∧ resInfo1.hasResolver = true ∧
    "build_std_out" ∈ resInfo1.writeStreams.map Prod.fst ∧
    (ActBefore (clearDelegation pendingDelegation (.jsStr "boom")).1
       (DAct.endStream "build_std_out") (DAct.streamFinished "build_std_out") ∧
     ActBefore (clearDelegation pendingDelegation (.jsStr "boom")).1
       (DAct.streamFinished "build_std_out") (DAct.resolveSignal (.jsStr "boom")) ∧
     ActBefore (clearDelegation pendingDelegation (.jsStr "boom")).1
       (DAct.resolveSignal (.jsStr "boom")) DAct.discardDelegation ∧
     (clearDelegation pendingDelegation (.jsStr "boom")).2.res = none ∧
     (clearDelegation pendingDelegation (.jsStr "boom")).2.isDelegating = false) :=
  ⟨by decide, by decide, by decide,
   clearDelegation_flush_before_resolve pendingDelegation (.jsStr "boom") resInfo1
     "build_std_out" (by decide) (by decide) (by decide)⟩

/-- createJob clears the freshly installed delegation sub-state and
emits no network message when some file path is not a regular file or
the manifest has no Dockerfile. -/
theorem createJob_precondition_failure (s : ClientState) (filePaths : List String)
    (outDirOpt : Option String) (freshDir : String) (isFile isDir : String → Bool)
    (ackErr : JSVal)
    (h : (filePaths.map basename).contains "Dockerfile" = false ∨
         filePaths.any (fun p => !isFile p) = true) :
    (createJob s filePaths outDirOpt freshDir isFile isDir ackErr).1.res = none ∧
    (createJob s filePaths outDirOpt freshDir isFile isDir ackErr).2 = [] := by
  simp only [createJob, createJobWithRes]
  split
  · exact ⟨(clearDelegation_clears _ _).1, rfl⟩
  · split
    · exact ⟨(clearDelegation_clears _ _).1, rfl⟩
    · rename_i hfind
      split
      · exact ⟨(clearDelegation_clears _ _).1, rfl⟩
      · rename_i hcont
        exfalso
        rcases h with h | h
        · have hc : (filePaths.map basename).contains "Dockerfile" = true := by
            simpa using hcont
          rw [h] at hc
          exact Bool.noConfusion hc
        · obtain ⟨p, hp, hnp⟩ := List.any_eq_true.mp h
          have hok := List.find?_eq_none.mp hfind p hp
          simp [hnp] at hok

/-- Claim C5: a delegateJob call whose manifest, after stripping
directories, lacks a file named Dockerfile, or whose path list contains
a path that is not a regular file, returns the error branch, emits no
network message (in particular no job-creation request), and opens no
file read stream. -/
theorem delegateJob_precondition_failure (s : ClientState) (filePaths : List String)
    (outDirOpt : Option String) (freshDir : String) (isFile isDir : String → Bool)
    (ackErr : JSVal) (readChunks : String → List String) (readFails : String → Bool)
    (finishErr : JSVal)
    (h : (filePaths.map basename).contains "Dockerfile" = false ∨
         filePaths.any (fun p => !isFile p) = true) :
    (delegateJob s filePaths outDirOpt freshDir isFile isDir ackErr readChunks readFails
       finishErr).failed = true ∧
    (delegateJob s filePaths outDirOpt freshDir isFile isDir ackErr readChunks readFails
       finishErr).emits = [] ∧
    (delegateJob s filePaths outDirOpt freshDir isFile isDir ackErr readChunks readFails
       finishErr).readsOpened = [] := by
  obtain ⟨h1, h2⟩ := createJob_precondition_failure s filePaths outDirOpt freshDir
    isFile isDir ackErr h
  simp [delegateJob, h1, h2, DelegateOut.failed]

/-- Witness for delegateJob_precondition_failure: a manifest consisting
only of src/main.go (no Dockerfile) fails with no emission and no read
stream. -/
theorem delegateJob_precondition_failure_witness :
    ((["src/main.go"].map basename).contains "Dockerfile" = false ∨
     List.any ["src/main.go"] (fun p => !(fun _ => true : String → Bool) p) = true) ∧
    ((delegateJob (initState "tmp") ["src/main.go"] none "tmp/res2" (fun _ => true)
        (fun _ => true) JSVal.jsUndef (fun _ => ["c"]) (fun _ => false)
        JSVal.jsUndef).failed = true ∧
     (delegateJob (initState "tmp") ["src/main.go"] none "tmp/res2" (fun _ => true)
        (fun _ => true) JSVal.jsUndef (fun _ => ["c"]) (fun _ => false)
        JSVal.jsUndef).emits = [] ∧
     (delegateJob (initState "tmp") ["src/main.go"] none "tmp/res2" (fun _ => true)
        (fun _ => true) JSVal.jsUndef (fun _ => ["c"]) (fun _ => false)
        JSVal.jsUndef).readsOpened = []) :=
  ⟨Or.inl (by decide),
   delegateJob_precondition_failure (initState "tmp") ["src/main.go"] none "tmp/res2"
     (fun _ => true) (fun _ => true) JSVal.jsUndef (fun _ => ["c"]) (fun _ => false)
     JSVal.jsUndef (Or.inl (by decide))⟩

/-- The suspension-point state of the job-offer handler on the freshly
initialized client (defaulting to the initial state itself if the
handler errors before suspending, which it does not here). -/
def suspendedOffer : ClientState :=
  (new_job_ack_suspended (initState "tmp")).getD (initState "tmp")

/-- Claim C3 (counterexample): at the asynchronous suspension point
inside the job-offer handler — after the checks pass, while the
temp-directory creation is awaited — the freshly initialized client has
isWorking already true while the job sub-state is still absent, so the
flag/sub-state invariant does not hold at every suspension point. -/
theorem invariant_broken_at_suspension :
    (new_job_ack_suspended (initState "tmp")).isSome = true ∧
    suspendedOffer.isWorking = true ∧ suspendedOffer.job = none := by
  decide

/-- A job offer that passes its checks is exactly the suspended prefix
(set isWorking) followed by the resumption (install the job): the
atomic event is the no-interleaving schedule of the two micro steps. -/
theorem new_job_ack_eq_suspend_resume (s : ClientState) (fns : List String) (d : String)
    (h1 : (s.isWorking || s.job.isSome) = false) (h2 : s.delcomTempDir.isSome = true) :
    new_job_ack s fns d = newJobAckResume { s with isWorking := true } ⟨fns, d⟩ := by
  obtain ⟨td, htd⟩ : ∃ td, s.delcomTempDir = some td := by
    cases hs : s.delcomTempDir
    · rw [hs] at h2
      simp at h2
    · exact ⟨_, rfl⟩
  simp [new_job_ack, newJobAckResume, h1, htd]

/-- A createJob call with no output directory supplied is exactly the
suspended prefix (set isDelegating) followed by the resumption. -/
theorem createJob_eq_suspend_resume (s : ClientState) (fp : List String) (fd : String)
    (isFile isDir : String → Bool) (ae : JSVal) :
    createJob s fp none fd isFile isDir ae =
      createJobResume { s with isDelegating := true } ⟨fp, fd, isFile, ae⟩ := rfl

/-- Every whole-handler event preserves the worker-half pairing. -/
theorem wker_step (s : ClientState) (e : Event) (h : Wker s) : Wker (step s e) := by
  cases e with
  | newJobAck fns d =>
    simp only [step, new_job_ack]
    split
    · exact wker_clearJob s (.jsError "Already working job!") true
    · split
      · exact wker_clearJob { s with isWorking := true } (.jsError "No temp dir!") true
      · intro _
        rfl
  | receiveFileData n c we =>
    simp only [step, receive_file_data]
    split
    · exact wker_clearJob s (.jsError "No job setup to write to!") true
    · split
      · split
        · rename_i e
          exact wker_clearJob s e true
        · intro _
          rfl
      · exact wker_clearJob s
          (.jsError "Cannot read properties of undefined (reading write)") true
  | outputData n c =>
    simp only [step, outputEvent]
    split
    · exact wker_clearJob s (.jsError "No writeable stream to write to!") true
    · exact h
  | runJob b r =>
    simp only [step, run_job]
    split
    · exact wker_clearJob (finishJobStreams s) (.jsStr "No job dir to build from!") false
    · split
      · exact wker_clearJob (finishJobStreams s) (.jsStr "No socket to build with!") false
      · split
        · exact wker_clearJob (finishJobStreams s)
            (.jsStr ("Build failed with code " ++ toString b)) false
        · split
          · exact wker_clearJob (finishJobStreams s)
              (.jsStr ("Runtime failed with code " ++ toString r)) false
          · exact wker_clearJob (finishJobStreams s) JSVal.jsUndef false
  | finishedEvt => exact wker_clearDelegation _ _ h
  | delegatorDisconnect => exact wker_clearJob s (.jsStr "Delegator has disconnected") false
  | workerDisconnect => exact wker_clearDelegation _ _ h
  | delegationFailed reason => exact wker_clearDelegation _ _ h
  | createJobOp fp od fd isFile isDir ae =>
    simp only [step, createJob, createJobWithRes]
    split
    · exact wker_clearDelegation _ _ h
    · split
      · exact wker_clearDelegation _ _ h
      · split
        · exact wker_clearDelegation _ _ h
        · split
          · split
            · exact wker_clearDelegation _ _ h
            · exact h
          · exact h
  | sendFilesOp fp rc rf =>
    simp only [step, sendFiles]
    split
    · exact wker_clearDelegation _ _ h
    · split
      · exact wker_clearDelegation _ _ h
      · exact h
  | joinOp ok =>
    simp only [step, joinWorkforce]
    split
    · exact h
    · split
      · exact h
      · exact h
  | leaveOp ok =>
    simp only [step, leaveWorkforce]
    split
    · exact h
    · split
      · exact h
      · exact h

/-- Every whole-handler event preserves the delegator-half pairing. -/
theorem dleg_step (s : ClientState) (e : Event) (h : Dleg s) : Dleg (step s e) := by
  cases e with
  | newJobAck fns d =>
    simp only [step, new_job_ack]
    split
    · exact dleg_clearJob s (.jsError "Already working job!") true h
    · split
      · exact dleg_clearJob { s with isWorking := true } (.jsError "No temp dir!") true h
      · exact h
  | receiveFileData n c we =>
    simp only [step, receive_file_data]
    split
    · exact dleg_clearJob s (.jsError "No job setup to write to!") true h
    · split
      · split
        · rename_i e
          exact dleg_clearJob s e true h
        · exact h
      · exact dleg_clearJob s
          (.jsError "Cannot read properties of undefined (reading write)") true h
  | outputData n c =>
    simp only [step, outputEvent]
    split
    · exact dleg_clearJob s (.jsError "No writeable stream to write to!") true h
    · intro hd
      have hd2 := h hd
      cases hres : s.res
      · rw [hres] at hd2
        exact Bool.noConfusion hd2
      · simp [hres]
  | runJob b r =>
    simp only [step, run_job]
    split
    · exact dleg_clearJob (finishJobStreams s) (.jsStr "No job dir to build from!") false h
    · split
      · exact dleg_clearJob (finishJobStreams s) (.jsStr "No socket to build with!") false h
      · split
        · exact dleg_clearJob (finishJobStreams s)
            (.jsStr ("Build failed with code " ++ toString b)) false h
        · split
          · exact dleg_clearJob (finishJobStreams s)
              (.jsStr ("Runtime failed with code " ++ toString r)) false h
          · exact dleg_clearJob (finishJobStreams s) JSVal.jsUndef false h
  | finishedEvt => exact dleg_clearDelegation _ _
  | delegatorDisconnect => exact dleg_clearJob s (.jsStr "Delegator has disconnected") false h
  | workerDisconnect => exact dleg_clearDelegation _ _
  | delegationFailed reason => exact dleg_clearDelegation _ _
  | createJobOp fp od fd isFile isDir ae =>
    simp only [step, createJob, createJobWithRes]
    split
    · exact dleg_clearDelegation _ _
    · split
      · exact dleg_clearDelegation _ _
      · split
        · exact dleg_clearDelegation _ _
        · split
          · split
            · exact dleg_clearDelegation _ _
            · intro _
              rfl
          · intro _
            rfl
  | sendFilesOp fp rc rf =>
    simp only [step, sendFiles]
    split
    · exact dleg_clearDelegation _ _
    · split
      · exact dleg_clearDelegation _ _
      · exact h
  | joinOp ok =>
    simp only [step, joinWorkforce]
    split
    · exact h
    · split
      · exact h
      · exact h
  | leaveOp ok =>
    simp only [step, leaveWorkforce]
    split
    · exact h
    · split
      · exact h
      · exact h

/-- Resuming a suspended job offer installs the job sub-state, so the
worker-half pairing holds outright afterwards. -/
theorem wker_newJobAckResume (cs : ClientState) (p : JobPending) :
    Wker (newJobAckResume cs p).1 := by
  intro _
  rfl

/-- Resuming a suspended job offer leaves the delegator-side fields
alone. -/
theorem dleg_newJobAckResume (cs : ClientState) (p : JobPending) (h : Dleg cs) :
    Dleg (newJobAckResume cs p).1 := h

/-- Resuming a suspended createJob either keeps its freshly installed
sub-state or clears both delegator fields, so the delegator-half
pairing holds outright afterwards. -/
theorem dleg_createJobResume (cs : ClientState) (p : ResPending) :
    Dleg (createJobResume cs p).1 := by
  simp only [createJobResume, createJobWithRes]
  split
  · exact dleg_clearDelegation _ _
  · split
    · exact dleg_clearDelegation _ _
    · split
      · exact dleg_clearDelegation _ _
      · split
        · split
          · exact dleg_clearDelegation _ _
          · intro _
            rfl
        · intro _
          rfl

/-- Resuming a suspended createJob preserves the worker-half pairing
(it only touches delegator-side fields). -/
theorem wker_createJobResume (cs : ClientState) (p : ResPending) (h : Wker cs) :
    Wker (createJobResume cs p).1 := by
  simp only [createJobResume, createJobWithRes]
  split
  · exact wker_clearDelegation _ _ h
  · split
    · exact wker_clearDelegation _ _ h
    · split
      · exact wker_clearDelegation _ _ h
      · split
        · split
          · exact wker_clearDelegation _ _ h
          · exact h
        · exact h

/-- Every micro step — whole-handler event, suspension, or resumption —
preserves the system invariant. -/
theorem sysInv_microStep {s t : SysState} (hst : MicroStep s t) (h : SysInv s) :
    SysInv t := by
  cases hst with
  | event s e =>
    obtain ⟨h1, h2⟩ := h
    constructor
    · intro hw
      by_cases hp : s.pendingJobs = []
      · have hW : Wker s.cs := fun hw2 => (h1 hw2).resolve_right (fun hne => hne hp)
        exact Or.inl (wker_step s.cs e hW hw)
      · exact Or.inr hp
    · intro hd
      by_cases hp : s.pendingRess = []
      · have hD : Dleg s.cs := fun hd2 => (h2 hd2).resolve_right (fun hne => hne hp)
        exact Or.inl (dleg_step s.cs e hD hd)
      · exact Or.inr hp
  | offerSuspend s fns d hg ht =>
    obtain ⟨h1, h2⟩ := h
    constructor
    · intro _
      exact Or.inr (List.cons_ne_nil _ _)
    · intro hd
      exact h2 hd
  | offerResume cs l1 l2 p pr =>
    obtain ⟨h1, h2⟩ := h
    constructor
    · intro _
      exact Or.inl rfl
    · intro hd
      rcases h2 hd with hr | hne
      · exact Or.inl hr
      · exact Or.inr hne
  | delegSuspend s fp d isFile ae =>
    obtain ⟨h1, h2⟩ := h
    constructor
    · intro hw
      exact h1 hw
    · intro _
      exact Or.inr (List.cons_ne_nil _ _)
  | delegResume cs pj l1 l2 p =>
    obtain ⟨h1, h2⟩ := h
    constructor
    · intro hw
      by_cases hp : pj = []
      · have hW : Wker cs := fun hw2 => (h1 hw2).resolve_right (fun hne => hne hp)
        exact Or.inl (wker_createJobResume cs p hW hw)
      · exact Or.inr hp
    · intro hd
      exact Or.inl (dleg_createJobResume cs p hd)

/-- The system invariant holds in every reachable system state. -/
theorem sysInv_reachable {tempDir : String} {s : SysState}
    (h : ReachableI tempDir s) : SysInv s := by
  induction h with
  | init =>
    exact ⟨fun hw => Bool.noConfusion hw, fun hd => Bool.noConfusion hd⟩
  | next _ hstep ih => exact sysInv_microStep hstep ih

/-- Claim C3 (amended): in every reachable quiescent system state (no
handler suspended mid-execution) isWorking implies the job sub-state is
present and isDelegating implies the delegation sub-state is present.
Neither converse holds — a clear processed while the job-offer handler
(or createJob) awaits mkdtemp leaves an orphaned sub-state whose flag
is false at a fully quiescent state, the very state this theorem's
witness reaches — and at the suspension points themselves even the
forward direction fails, as invariant_broken_at_suspension shows. -/
theorem flags_imply_substates_when_quiescent (tempDir : String) (s : SysState)
    (h : ReachableI tempDir s) (hqj : s.pendingJobs = []) (hqr : s.pendingRess = []) :
    (s.cs.isWorking = true → s.cs.job.isSome = true) ∧
    (s.cs.isDelegating = true → s.cs.res.isSome = true) := by
  obtain ⟨h1, h2⟩ := sysInv_reachable h
  constructor
  · intro hw
    exact (h1 hw).resolve_right (fun hne => hne hqj)
  · intro hd
    exact (h2 hd).resolve_right (fun hne => hne hqr)

/-- The suspended job offer used in the orphaned-job scenario. -/
def offerPending1 : JobPending :=
  { fileNames := ["Dockerfile"], freshDir := "tmp/job1" }

/-- The quiescent state produced by: job offer suspends at mkdtemp
(isWorking set), a delegator_disconnect is processed during the await
(clearJob resets isWorking and job), the offer handler resumes and
installs the job sub-state — leaving an orphaned job with isWorking
false. -/
def orphanedJobState : SysState :=
  ⟨(newJobAckResume (step { initState "tmp" with isWorking := true }
      Event.delegatorDisconnect) offerPending1).1, [], []⟩

/-- The orphaned-job state is reachable by the suspend, event, resume
schedule described on orphanedJobState. -/
theorem orphanedJobState_reachable : ReachableI "tmp" orphanedJobState :=
  ReachableI.next
    (ReachableI.next
      (ReachableI.next ReachableI.init
        (MicroStep.offerSuspend ⟨initState "tmp", [], []⟩ ["Dockerfile"] "tmp/job1"
          (by decide) (by decide)))
      (MicroStep.event ⟨{ initState "tmp" with isWorking := true }, [offerPending1], []⟩
        Event.delegatorDisconnect))
    (MicroStep.offerResume
      (step { initState "tmp" with isWorking := true } Event.delegatorDisconnect)
      [] [] offerPending1 [])

/-- Witness for flags_imply_substates_when_quiescent, applied at the
reachable quiescent orphaned-job state: the job sub-state is present
with isWorking false (so the conclusion holds vacuously on the worker
half), demonstrating that the converse direction genuinely fails at a
state the reachability relation covers. -/
theorem flags_imply_substates_when_quiescent_witness :
    ReachableI "tmp" orphanedJobState ∧
    orphanedJobState.pendingJobs = [] ∧
    orphanedJobState.pendingRess = [] ∧
    orphanedJobState.cs.job.isSome = true ∧
    orphanedJobState.cs.isWorking = false ∧
    ((orphanedJobState.cs.isWorking = true → orphanedJobState.cs.job.isSome = true) ∧
     (orphanedJobState.cs.isDelegating = true → orphanedJobState.cs.res.isSome = true)) :=
  ⟨orphanedJobState_reachable, rfl, rfl, by decide, by decide,
   flags_imply_substates_when_quiescent "tmp" orphanedJobState
     orphanedJobState_reachable rfl rfl⟩

end DelcomClient
